import Mathlib

set_option maxRecDepth 100000

/-!
Shallow embedding of the BMN (Bundesmeldenetz) coordinate engine of the
cartconvert repository (file src/osgb36/osgb36.go). Numeric fields are
modelled by Frac, an exact rational arithmetic on integers kept in lowest
terms, standing for the float64 values of the source: every concrete value
appearing in the claims is exactly representable. The geocentric pipeline of
the cartconvert core package (PolarToCartesian, the Helmert transform,
CartesianToPolar and the transverse Mercator projection) is abstracted as
explicit function parameters, since only the bmn file is embedded
concretely.
-/

/-- Exact rational number: numerator and denominator. Every operation below
returns a value in lowest terms with positive denominator, so structural
equality coincides with value equality on the results of the embedding. -/
structure Frac where
  num : ℤ
  den : ℤ
deriving DecidableEq

/-- Normalize a fraction: positive denominator, lowest terms. -/
def Frac.norm (n d : ℤ) : Frac :=
  if d = 0 then ⟨0, 1⟩
  else
    let s : ℤ := if d < 0 then -1 else 1
    let g : ℤ := Int.gcd n d
    ⟨s * n / g, s * d / g⟩

def Frac.add (a b : Frac) : Frac := Frac.norm (a.num * b.den + b.num * a.den) (a.den * b.den)

def Frac.sub (a b : Frac) : Frac := Frac.norm (a.num * b.den - b.num * a.den) (a.den * b.den)

def Frac.mul (a b : Frac) : Frac := Frac.norm (a.num * b.num) (a.den * b.den)

def Frac.div (a b : Frac) : Frac := Frac.norm (a.num * b.den) (a.den * b.num)

/-- Order by cross multiplication (the denominators of all values compared in
the embedding are positive). -/
def Frac.lt (a b : Frac) : Prop := a.num * b.den < b.num * a.den

def Frac.le (a b : Frac) : Prop := a.num * b.den ≤ b.num * a.den

/-- Floor of a fraction with positive denominator. -/
def Frac.floor (a : Frac) : ℤ := Int.fdiv a.num a.den

instance : Add Frac := ⟨Frac.add⟩

instance : Sub Frac := ⟨Frac.sub⟩

instance : Mul Frac := ⟨Frac.mul⟩

instance : Div Frac := ⟨Frac.div⟩

instance : Neg Frac := ⟨fun a => ⟨-a.num, a.den⟩⟩

instance : LT Frac := ⟨Frac.lt⟩

instance : LE Frac := ⟨Frac.le⟩

instance (n : ℕ) : OfNat Frac n := ⟨⟨(n : ℤ), 1⟩⟩

instance : OfScientific Frac :=
  ⟨fun m b e => if b then Frac.norm (m : ℤ) ((10 : ℤ) ^ e) else ⟨(m : ℤ) * (10 : ℤ) ^ e, 1⟩⟩

instance (a b : Frac) : Decidable (a < b) :=
  inferInstanceAs (Decidable (a.num * b.den < b.num * a.den))

instance (a b : Frac) : Decidable (a ≤ b) :=
  inferInstanceAs (Decidable (a.num * b.den ≤ b.num * a.den))

/-- Reference ellipsoid identity. Modelled from the spec: the engine uses two
process wide constant ellipsoids (the grid native Bessel ellipsoid and the
WGS84 ellipsoid, cartconvert constants BesselEllipsoid and WGS84Ellipsoid);
only their identity is relevant to the embedded code. -/
inductive Ellipsoid where
  | bessel
  | wgs84
deriving DecidableEq

/-- Meridian stripe specifier of the BMN grid (Go type BMNMeridian with
constants BMNZoneDet, BMNM28, BMNM31, BMNM34; BMNZoneDet is the sentinel of
automatic zone detection). -/
inductive BMNMeridian where
  | BMNZoneDet
  | BMNM28
  | BMNM31
  | BMNM34
deriving DecidableEq

/-- Go struct BMNCoord: easting (Right), northing (Height), relative height,
meridian stripe and reference ellipsoid. -/
structure BMNCoord where
  Right : Frac
  Height : Frac
  RelHeight : Frac
  Meridian : BMNMeridian
  el : Ellipsoid
deriving DecidableEq

/-- Geodetic point of the cartconvert core (latitude, longitude, height and
reference ellipsoid). Modelled from the spec (GeodeticPoint): the core type
cartconvert.PolarCoord is not among the embedded sources. -/
structure PolarCoord where
  Latitude : Frac
  Longitude : Frac
  Height : Frac
  El : Ellipsoid
deriving DecidableEq

/-- Error values returned by the embedded functions: einval stands for the Go
value os.EINVAL (used both for an unrecognized zone code and for an
unresolved meridian stripe), numError for the distinct error value returned
by strconv.Atof64 on a malformed numeral. -/
inductive BMNError where
  | einval
  | numError
deriving DecidableEq

/-- Outcome of ABMNToStruct: a parsed coordinate, an error value, or a
runtime fault (a Go panic such as a slice bound violation). -/
inductive ParseOutcome where
  | ok (c : BMNCoord)
  | err (e : BMNError)
  | fault
deriving DecidableEq

/-- Outcome of WGS84LatLongToBMN. -/
inductive BMNResult where
  | ok (c : BMNCoord)
  | err (e : BMNError)
deriving DecidableEq

/-- Outcome of BMNToWGS84LatLong. -/
inductive PolarResult where
  | ok (p : PolarCoord)
  | err (e : BMNError)
deriving DecidableEq

/-- Go map bmnStrings; a missing key (the sentinel) yields the empty string,
the Go zero value of string. -/
def bmnStrings : BMNMeridian → String
  | .BMNM28 => "M28"
  | .BMNM31 => "M31"
  | .BMNM34 => "M34"
  | .BMNZoneDet => ""

/-- Rounding of the fmt verb %.0f: nearest integer, ties to even. -/
def goRound0 (q : Frac) : ℤ :=
  let f := Frac.floor q
  let r := q - ⟨f, 1⟩
  if r < (0.5 : Frac) then f
  else if (0.5 : Frac) < r then f + 1
  else if f % 2 = 0 then f else f + 1

/-- fmt.Sprintf with verb %.0f, for the values this package produces (the Go
rendering -0 for inputs in the open interval from -1/2 to 0 is not modelled;
no embedded claim touches it). -/
def fmtF0 (q : Frac) : String :=
  (if goRound0 q < 0 then "-" else "") ++ Nat.repr (goRound0 q).natAbs

/-- The trailing cleanup loop inside the method BMNCoord.String: drop
trailing zero characters of the whole accumulated string, then one trailing
dot. -/
def stripTrailing (l : List Char) : List Char :=
  let r := l.reverse.dropWhile (fun c => c == '0')
  (match r with
    | '.' :: t => t
    | t => t).reverse

/-- Embedding of the method String on BMNCoord (canonical text form): start
from the zone code, and for each of Right and Height append a space and the
%.0f rendering, then run the trailing cleanup loop on the whole accumulated
string. -/
def bmnString (bc : BMNCoord) : String :=
  let step (fs : String) (next : Frac) : String :=
    String.mk (stripTrailing (fs ++ " " ++ fmtF0 next).data)
  step (step (bmnStrings bc.Meridian) bc.Right) bc.Height

/-- Character class of strings.TrimSpace (ASCII whitespace; every input the
repository feeds it is ASCII). -/
def goIsSpace (c : Char) : Bool :=
  c == ' ' || c == '\t' || c == '\n' || c == '\x0b' || c == '\x0c' || c == '\r'

/-- strings.TrimSpace. -/
def trimSpace (l : List Char) : List Char :=
  ((l.dropWhile goIsSpace).reverse.dropWhile goIsSpace).reverse

/-- strings.Index applied to a single space, with the Go result -1 replaced,
as in the source, by the length of the string. -/
def indexSpace (l : List Char) : Nat :=
  (l.findIdx? (fun c => c == ' ')).getD l.length

/-- The zone code switch of ABMNToStruct. -/
def zoneFromCode (tok : List Char) : Option BMNMeridian :=
  if tok = "M28".data then some .BMNM28
  else if tok = "M31".data then some .BMNM31
  else if tok = "M34".data then some .BMNM34
  else none

/-- Value of a list of decimal digit characters. -/
def digitsToNat (l : List Char) : Nat :=
  l.foldl (fun a c => 10 * a + (c.toNat - 48)) 0

/-- strconv.Atof64 on the decimal grammar: optional sign, integer digits,
optional fraction, optional decimal exponent, at least one mantissa digit,
no trailing garbage. The literal forms of infinities and NaN are not
modelled (no claim depends on them), and the exact rational value stands for
the nearest float64. -/
def atof64 (l : List Char) : Option Frac :=
  let neg : Bool := match l with
    | '-' :: _ => true
    | _ => false
  let l1 : List Char := match l with
    | '+' :: t => t
    | '-' :: t => t
    | t => t
  let ip := l1.takeWhile Char.isDigit
  let r1 := l1.dropWhile Char.isDigit
  let fp : List Char := match r1 with
    | '.' :: t => t.takeWhile Char.isDigit
    | _ => []
  let r2 : List Char := match r1 with
    | '.' :: t => t.dropWhile Char.isDigit
    | t => t
  if ip = [] ∧ fp = [] then none
  else
    let mant0 : Frac :=
      Frac.norm ((digitsToNat ip : ℤ) * (10 : ℤ) ^ fp.length + (digitsToNat fp : ℤ))
        ((10 : ℤ) ^ fp.length)
    let mant : Frac := if neg then -mant0 else mant0
    match r2 with
    | [] => some mant
    | c :: t =>
      if c == 'e' || c == 'E' then
        let eneg : Bool := match t with
          | '-' :: _ => true
          | _ => false
        let t1 : List Char := match t with
          | '+' :: u => u
          | '-' :: u => u
          | u => u
        let ed := t1.takeWhile Char.isDigit
        let r3 := t1.dropWhile Char.isDigit
        if ed = [] ∨ r3 ≠ [] then none
        else some (if eneg
          then Frac.norm mant.num (mant.den * (10 : ℤ) ^ digitsToNat ed)
          else Frac.norm (mant.num * (10 : ℤ) ^ digitsToNat ed) mant.den)
      else none

/-- The tail of ABMNToStruct past token extraction: strconv.Atof64 on the
easting and the northing token, then the single success return site of the
function, which fixes RelHeight to the zero value and the ellipsoid to the
Bessel ellipsoid. -/
def bmnFromTokens (meridian : BMNMeridian) (rights heights : List Char) : ParseOutcome :=
  match atof64 rights with
  | none => .err .numError
  | some right =>
    match atof64 heights with
    | none => .err .numError
    | some height => .ok ⟨right, height, 0, meridian, Ellipsoid.bessel⟩

/-- Embedding of ABMNToStruct. The three round token loop of the source is
unrolled: round 0 reads the zone code (an unrecognized code stops with
os.EINVAL before any slicing), rounds 0 and 1 then advance with the slice
compact[index+1:], which in Go raises a bounds fault when no further
separator space exists (then index equals the length of compact); round 2
reads the northing token and leaves the loop before any advance, so further
tokens are ignored. -/
def abmnToStruct (bmncoord : String) : ParseOutcome :=
  let compact := trimSpace (bmncoord.data.map Char.toUpper)
  let i0 := indexSpace compact
  match zoneFromCode (compact.take i0) with
  | none => .err .einval
  | some meridian =>
    if compact.length < i0 + 1 then .fault
    else
      let c1 := (compact.drop (i0 + 1)).dropWhile (fun c => c == ' ')
      let i1 := indexSpace c1
      let rights := c1.take i1
      if c1.length < i1 + 1 then .fault
      else
        let c2 := (c1.drop (i1 + 1)).dropWhile (fun c => c == ' ')
        let heights := c2.take (indexSpace c2)
        bmnFromTokens meridian rights heights

/-- First range test of the meridian detection switch (stripe M28), written
with the boundary expressions of the source. -/
def bmnRange1 (lon : Frac) : Prop := 11 + 0.5/6*10 ≥ lon ∧ lon ≥ 8 + 0.5/6*10

instance (lon : Frac) : Decidable (bmnRange1 lon) :=
  inferInstanceAs (Decidable (11 + 0.5/6*10 ≥ lon ∧ lon ≥ 8 + 0.5/6*10))

/-- Second range test of the meridian detection switch (stripe M31). -/
def bmnRange2 (lon : Frac) : Prop := 14 + 0.5/6*10 ≥ lon ∧ lon ≥ 11 + 0.5/6*10

instance (lon : Frac) : Decidable (bmnRange2 lon) :=
  inferInstanceAs (Decidable (14 + 0.5/6*10 ≥ lon ∧ lon ≥ 11 + 0.5/6*10))

/-- Third range test of the meridian detection switch (stripe M34). -/
def bmnRange3 (lon : Frac) : Prop := 17 + 0.5/6*10 ≥ lon ∧ lon ≥ 14 + 0.5/6*10

instance (lon : Frac) : Decidable (bmnRange3 lon) :=
  inferInstanceAs (Decidable (17 + 0.5/6*10 ≥ lon ∧ lon ≥ 14 + 0.5/6*10))

/-- The boundary value shared by the first and the second range test. -/
def bmnBoundary12 : Frac := 11 + 0.5/6*10

/-- The meridian detection switch of WGS84LatLongToBMN: ordered inclusive
range tests, first match wins; when no range matches, the meridian keeps the
sentinel value. -/
def resolveMeridianBMN (lon : Frac) : BMNMeridian :=
  if bmnRange1 lon then .BMNM28
  else if bmnRange2 lon then .BMNM31
  else if bmnRange3 lon then .BMNM34
  else .BMNZoneDet

/-- Central meridian and false easting per meridian stripe (the switch shared
by BMNToWGS84LatLong and WGS84LatLongToBMN); the sentinel has no parameters
and leads to the os.EINVAL return of the default case. -/
def meridianParams : BMNMeridian → Option (Frac × Frac)
  | .BMNM28 => some (10 + 20/60, 150000)
  | .BMNM31 => some (13 + 20/60, 450000)
  | .BMNM34 => some (16 + 20/60, 750000)
  | .BMNZoneDet => none

/-- Embedding of BMNToWGS84LatLong. The geocentric part (inverse transverse
Mercator, polar and cartesian conversion, inverse Helmert transform) is
cartconvert core code outside the embedded sources and is abstracted as the
parameter invPipe; the source fixes the ellipsoid of its final
CartesianToPolar call to the WGS84 ellipsoid, which is kept explicit. -/
def bmnToWGS84LatLong (invPipe : BMNCoord → Frac → Frac → PolarCoord)
    (bmncoord : BMNCoord) : PolarResult :=
  match meridianParams bmncoord.Meridian with
  | none => .err .einval
  | some p => .ok { invPipe bmncoord p.1 p.2 with El := Ellipsoid.wgs84 }

/-- The trailing part of WGS84LatLongToBMN, from the already resolved stripe:
the switch selecting the central meridian and false easting (its default
returns os.EINVAL) and the forward projection call building the result; the
projection leaves the ellipsoid of its input unchanged, so the el field of
the result is the ellipsoid of the projected point. -/
def wgs84Project (fwd : PolarCoord → Frac → Frac → Frac × Frac)
    (polar : PolarCoord) (meridian1 : BMNMeridian) : BMNResult :=
  match meridianParams meridian1 with
  | none => .err .einval
  | some p =>
      .ok ⟨(fwd polar p.1 p.2).1, (fwd polar p.1 p.2).2, 0, meridian1, polar.El⟩

/-- Embedding of WGS84LatLongToBMN. The first component of the result is the
final value of the caller supplied PolarCoord: the body performs exactly one
write to it, the assignment of the WGS84 ellipsoid to gc.El, before any
other step. The datum shift onto the grid native datum (PolarToCartesian,
Helmert transform, CartesianToPolar) is cartconvert core code outside the
embedded sources, abstracted as the parameter shift; the source fixes the
ellipsoid of its CartesianToPolar call to the Bessel ellipsoid, kept
explicit here. The forward transverse Mercator projection is abstracted as
the parameter fwd returning the easting and northing pair. -/
def wgs84LatLongToBMN (shift : PolarCoord → PolarCoord)
    (fwd : PolarCoord → Frac → Frac → Frac × Frac)
    (gc : PolarCoord) (meridian : BMNMeridian) : PolarCoord × BMNResult :=
  let gcW : PolarCoord := { gc with El := Ellipsoid.wgs84 }
  let polar : PolarCoord := { shift gcW with El := Ellipsoid.bessel }
  (gcW,
    wgs84Project fwd polar
      (if meridian = BMNMeridian.BMNZoneDet then resolveMeridianBMN polar.Longitude
       else meridian))

/-- Identity instance of the abstracted datum shift. -/
def shiftId : PolarCoord → PolarCoord := fun p => p

/-- A datum shift instance moving the longitude by one degree. -/
def shiftPlusOne : PolarCoord → PolarCoord :=
  fun p => { p with Longitude := p.Longitude + 1 }

/-- A constant instance of the abstracted forward projection. -/
def fwdZero : PolarCoord → Frac → Frac → Frac × Frac := fun _ _ _ => (0, 0)

/-- A constant instance of the abstracted inverse pipeline. -/
def invZero : BMNCoord → Frac → Frac → PolarCoord := fun _ _ _ => ⟨0, 0, 0, Ellipsoid.wgs84⟩

/-- A geodetic point whose longitude is far outside every stripe range. -/
def pFar : PolarCoord := ⟨47, 100, 0, Ellipsoid.wgs84⟩

/-- A geodetic point inside the second stripe range. -/
def pNear : PolarCoord := ⟨47, 12.5, 0, Ellipsoid.bessel⟩

/-- A geodetic point carrying the Bessel ellipsoid. -/
def pBessel : PolarCoord := ⟨47, 15, 0, Ellipsoid.bessel⟩

/-- A grid coordinate whose meridian is the unresolved sentinel. -/
def cZoneDet : BMNCoord := ⟨1, 2, 0, BMNMeridian.BMNZoneDet, Ellipsoid.bessel⟩

/-- Claim C1 (evaluation of the code at the failing input): formatting the
grid coordinate with easting 450000.00 and northing 350000.50 yields the
text "M31 45 35" and not the expected text "M31 450000 350000.5": the %.0f
verb never emits a fractional digit (350000.5 rounds, ties to even, to
350000), and the cleanup loop strips trailing zeros of the whole accumulated
string, destroying the integral digits of both numerals. -/
theorem c1_format_bug_eval :
    bmnString ⟨450000, 350000.5, 0, .BMNM31, .bessel⟩ = "M31 45 35" ∧
    bmnString ⟨450000, 350000.5, 0, .BMNM31, .bessel⟩ ≠ "M31 450000 350000.5" := by
  decide

/-- Claim C2 (evaluation of the code at the failing input): parsing the
formatted text of the grid coordinate with easting 450000 and northing
350000 does not give the coordinate back; the formatter emits "M31 45 35",
so the round trip yields easting 45 and northing 35. -/
theorem c2_roundtrip_bug_eval :
    abmnToStruct (bmnString ⟨450000, 350000, 0, .BMNM31, .bessel⟩)
        = ParseOutcome.ok ⟨45, 35, 0, .BMNM31, .bessel⟩ ∧
    abmnToStruct (bmnString ⟨450000, 350000, 0, .BMNM31, .bessel⟩)
        ≠ ParseOutcome.ok ⟨450000, 350000, 0, .BMNM31, .bessel⟩ := by
  decide

/-- Claim C3 (evaluation of the code at the failing input): on the two token
input "M31 450000" the parser does not return an error value but runs into a
runtime fault, because after reading the easting token it advances with the
slice compact[index+1:] although index already equals the length of compact;
moreover a four token input parses successfully, silently ignoring the extra
token, so a wrong token count is not reported as a distinct error at all. -/
theorem c3_two_token_fault_eval :
    abmnToStruct "M31 450000" = ParseOutcome.fault ∧
    abmnToStruct "M28 1 2 3" = ParseOutcome.ok ⟨1, 2, 0, .BMNM28, .bessel⟩ := by
  decide

/-- Claim C4 (counterexample): WGS84LatLongToBMN does not leave the caller
supplied PolarCoord unchanged; called on a point carrying the Bessel
ellipsoid, the final value of the argument differs from the initial one,
because the body overwrites its El field with the WGS84 ellipsoid. -/
theorem c4_mutation_counterexample :
    (wgs84LatLongToBMN shiftId fwdZero pBessel BMNMeridian.BMNM31).1 ≠ pBessel := by
  decide

/-- Claim C4 (amended): the only argument mutation performed by any engine
operation is that WGS84LatLongToBMN overwrites the El field of the caller
supplied PolarCoord with the WGS84 ellipsoid (all other fields are
unchanged); consequently its result does not depend on the ellipsoid the
caller had set. -/
theorem c4_frame_amended :
    ∀ (shift : PolarCoord → PolarCoord) (fwd : PolarCoord → Frac → Frac → Frac × Frac)
      (gc : PolarCoord) (m : BMNMeridian),
      (wgs84LatLongToBMN shift fwd gc m).1 = { gc with El := Ellipsoid.wgs84 } ∧
      ∀ e, (wgs84LatLongToBMN shift fwd { gc with El := e } m).2
            = (wgs84LatLongToBMN shift fwd gc m).2 :=
  fun _ _ _ _ => ⟨rfl, fun _ => rfl⟩

/-- The success branch of the parser fixes the ellipsoid field. -/
theorem bmnFromTokens_ok_el (m : BMNMeridian) (r hh : List Char) (c : BMNCoord)
    (h : bmnFromTokens m r hh = .ok c) : c.el = Ellipsoid.bessel := by
  unfold bmnFromTokens at h
  split at h
  · exact ParseOutcome.noConfusion h
  · split at h
    · exact ParseOutcome.noConfusion h
    · cases h
      rfl

/-- Every successful parse carries the Bessel ellipsoid. -/
theorem abmnToStruct_ok_el (s : String) (c : BMNCoord)
    (h : abmnToStruct s = .ok c) : c.el = Ellipsoid.bessel := by
  simp only [abmnToStruct] at h
  split at h
  · exact ParseOutcome.noConfusion h
  · split at h
    · exact ParseOutcome.noConfusion h
    · split at h
      · exact ParseOutcome.noConfusion h
      · exact bmnFromTokens_ok_el _ _ _ _ h

/-- Claim C5: parsing "M31 450000 350000" succeeds with the second stripe,
easting 450000, northing 350000 and the Bessel ellipsoid, and every
successfully parsed coordinate carries the fixed Bessel ellipsoid, never one
inferred from the input text. -/
theorem c5_parse_scenario :
    abmnToStruct "M31 450000 350000"
        = ParseOutcome.ok ⟨450000, 350000, 0, .BMNM31, .bessel⟩ ∧
    ∀ (s : String) (c : BMNCoord), abmnToStruct s = .ok c → c.el = Ellipsoid.bessel :=
  ⟨by decide, fun s c h => abmnToStruct_ok_el s c h⟩

/-- Witness of claim C5 at the concrete scenario input. -/
theorem c5_parse_scenario_witness :
    (⟨450000, 350000, 0, BMNMeridian.BMNM31, Ellipsoid.bessel⟩ : BMNCoord).el
        = Ellipsoid.bessel :=
  c5_parse_scenario.2 "M31 450000 350000" _ c5_parse_scenario.1

/-- Claim C6: an unrecognized zone code fails with the zone error value
(os.EINVAL), a malformed easting numeral fails with the numeral error value
(the strconv error), and the two error conditions are distinct. -/
theorem c6_distinct_errors :
    abmnToStruct "X31 450000 350000" = ParseOutcome.err .einval ∧
    abmnToStruct "M31 abc 350000" = ParseOutcome.err .numError ∧
    BMNError.einval ≠ BMNError.numError := by
  decide

/-- Claim C7: a coordinate whose meridian is the unresolved sentinel is
rejected by BMNToWGS84LatLong with an error, and WGS84LatLongToBMN called
with the sentinel on a point whose longitude (after the datum shift, where
the code resolves it) matches none of the stripe ranges returns an error,
for every instantiation of the abstracted geocentric pipeline. -/
theorem c7_sentinel_rejected :
    (∀ (invPipe : BMNCoord → Frac → Frac → PolarCoord) (c : BMNCoord),
        c.Meridian = BMNMeridian.BMNZoneDet →
        bmnToWGS84LatLong invPipe c = PolarResult.err BMNError.einval) ∧
    (∀ (shift : PolarCoord → PolarCoord) (fwd : PolarCoord → Frac → Frac → Frac × Frac)
        (gc : PolarCoord),
        resolveMeridianBMN ((shift { gc with El := Ellipsoid.wgs84 }).Longitude)
            = BMNMeridian.BMNZoneDet →
        (wgs84LatLongToBMN shift fwd gc BMNMeridian.BMNZoneDet).2
            = BMNResult.err BMNError.einval) := by
  constructor
  · intro invPipe c h
    unfold bmnToWGS84LatLong
    rw [h]
    rfl
  · intro shift fwd gc h
    have e1 : (wgs84LatLongToBMN shift fwd gc BMNMeridian.BMNZoneDet).2
        = wgs84Project fwd
            { shift { gc with El := Ellipsoid.wgs84 } with El := Ellipsoid.bessel }
            (resolveMeridianBMN ((shift { gc with El := Ellipsoid.wgs84 }).Longitude)) := rfl
    rw [e1, h]
    rfl

/-- Witness of claim C7: a sentinel coordinate and a point with longitude far
outside every stripe range (100 degrees) are both rejected. -/
theorem c7_sentinel_rejected_witness :
    bmnToWGS84LatLong invZero cZoneDet = PolarResult.err BMNError.einval ∧
    (wgs84LatLongToBMN shiftId fwdZero pFar BMNMeridian.BMNZoneDet).2
        = BMNResult.err BMNError.einval :=
  ⟨c7_sentinel_rejected.1 invZero cZoneDet rfl,
   c7_sentinel_rejected.2 shiftId fwdZero pFar (by decide)⟩

/-- Claim C8 (counterexample): the longitude 11.0833 degrees does not lie on
the boundary shared by the first and the second stripe range; it differs
from the shared boundary constant and is not a member of both ranges. -/
theorem c8_boundary_counterexample :
    (11.0833 : Frac) ≠ bmnBoundary12 ∧
    ¬ (bmnRange1 (11.0833 : Frac) ∧ bmnRange2 (11.0833 : Frac)) := by
  decide

/-- Claim C8 (amended): the boundary shared by the first and the second
stripe range is 11 + 0.5/6*10 degrees, about 11.8333, not 11.0833; a
longitude lying in the first range resolves to the first stripe whatever
else it lies in (first match in the fixed evaluation order), so the shared
first and second boundary resolves to M28, and a longitude of a proper
fraction lying in both the second and the third range resolves to the second
stripe M31. -/
theorem c8_boundary_amended :
    (bmnRange1 bmnBoundary12 ∧ bmnRange2 bmnBoundary12) ∧
    (∀ lon : Frac, bmnRange1 lon → resolveMeridianBMN lon = BMNMeridian.BMNM28) ∧
    (∀ lon : Frac, 0 < lon.den → bmnRange2 lon → bmnRange3 lon →
        resolveMeridianBMN lon = BMNMeridian.BMNM31) := by
  refine ⟨by decide, ?_, ?_⟩
  · intro lon h1
    unfold resolveMeridianBMN
    rw [if_pos h1]
  · intro lon hden h2 h3
    have e12 : (11 + 0.5/6*10 : Frac) = ⟨71, 6⟩ := by decide
    have e3lo : (14 + 0.5/6*10 : Frac) = ⟨89, 6⟩ := by decide
    have hn1 : ¬ bmnRange1 lon := by
      intro h1
      unfold bmnRange1 at h1
      unfold bmnRange3 at h3
      rw [e12] at h1
      rw [e3lo] at h3
      have ha : lon.num * 6 ≤ 71 * lon.den := h1.1
      have hb : 89 * lon.den ≤ lon.num * 6 := h3.2
      linarith
    unfold resolveMeridianBMN
    rw [if_neg hn1, if_pos h2]

/-- Witness of claim C8 at the shared boundary value. -/
theorem c8_boundary_amended_witness :
    resolveMeridianBMN bmnBoundary12 = BMNMeridian.BMNM28 :=
  c8_boundary_amended.2.1 bmnBoundary12 c8_boundary_amended.1.1

/-- A successful projection result carries the stripe it was resolved to. -/
theorem wgs84Project_ok_meridian (fwd : PolarCoord → Frac → Frac → Frac × Frac)
    (polar : PolarCoord) (m : BMNMeridian) (c : BMNCoord)
    (h : wgs84Project fwd polar m = .ok c) : c.Meridian = m := by
  unfold wgs84Project at h
  split at h
  · exact BMNResult.noConfusion h
  · cases h
    rfl

/-- Claim C10: with the sentinel zone, WGS84LatLongToBMN resolves the stripe
from the longitude of the point after the datum shift onto the grid native
datum, not from the caller supplied longitude: every successful result
carries the stripe resolved from the shifted longitude, and there is a datum
shift instance and a point near a stripe boundary for which that stripe
differs from the one obtained by comparing the caller longitude directly
with the boundary constants. -/
theorem c10_post_shift_resolution :
    (∀ (shift : PolarCoord → PolarCoord) (fwd : PolarCoord → Frac → Frac → Frac × Frac)
        (gc : PolarCoord) (c : BMNCoord),
        (wgs84LatLongToBMN shift fwd gc BMNMeridian.BMNZoneDet).2 = BMNResult.ok c →
        c.Meridian
          = resolveMeridianBMN ((shift { gc with El := Ellipsoid.wgs84 }).Longitude)) ∧
    (∃ (shift : PolarCoord → PolarCoord) (fwd : PolarCoord → Frac → Frac → Frac × Frac)
        (gc : PolarCoord) (c : BMNCoord),
        (wgs84LatLongToBMN shift fwd gc BMNMeridian.BMNZoneDet).2 = BMNResult.ok c ∧
        c.Meridian ≠ resolveMeridianBMN gc.Longitude) := by
  constructor
  · intro shift fwd gc c h
    have e1 : (wgs84LatLongToBMN shift fwd gc BMNMeridian.BMNZoneDet).2
        = wgs84Project fwd
            { shift { gc with El := Ellipsoid.wgs84 } with El := Ellipsoid.bessel }
            (resolveMeridianBMN ((shift { gc with El := Ellipsoid.wgs84 }).Longitude)) := rfl
    rw [e1] at h
    exact wgs84Project_ok_meridian _ _ _ _ h
  · exact ⟨shiftPlusOne, fwdZero, ⟨47, 11.5, 0, Ellipsoid.wgs84⟩,
      ⟨0, 0, 0, BMNMeridian.BMNM31, Ellipsoid.bessel⟩, by decide, by decide⟩

/-- Witness of claim C10 with the identity shift at longitude 12.5. -/
theorem c10_post_shift_resolution_witness :
    (⟨0, 0, 0, BMNMeridian.BMNM31, Ellipsoid.bessel⟩ : BMNCoord).Meridian
        = resolveMeridianBMN ((shiftId { pNear with El := Ellipsoid.wgs84 }).Longitude) :=
  c10_post_shift_resolution.1 shiftId fwdZero pNear
    ⟨0, 0, 0, BMNMeridian.BMNM31, Ellipsoid.bessel⟩ (by decide)
